import Mathlib

/-!
Verification of the date/time normalization engine of the ogilvy repository
(src/sprinklr.py, src/tubular.py, src/youscan.py) against its natural-language
specification.  The Python modules are shallowly embedded: pandas Series
operations become per-cell Lean functions over strings, missing values (NaT /
NaN) become `Option`, and raising operations return `Except`.
-/

set_option autoImplicit false

deriving instance DecidableEq for Except

namespace Ogilvy

/-! ## Basic character/string helpers (embedding Python str primitives) -/

/-- Whitespace test used by the regex class `\s` and by `str.strip`. -/
def isWs (c : Char) : Bool :=
  c == ' ' || c == '\t' || c == '\n' || c == '\r'

/-- Embeds Python `str.lower` (ASCII case folding is all the sources need). -/
def lowerStr (s : String) : String :=
  String.mk (s.toList.map Char.toLower)

/-- List-of-chars prefix test. -/
def listPre : List Char → List Char → Bool
  | [], _ => true
  | _ :: _, [] => false
  | a :: as, b :: bs => a == b && listPre as bs

/-- List-of-chars substring test: does `hay` contain `needle`? -/
def listSub (needle : List Char) : List Char → Bool
  | [] => listPre needle []
  | h :: t => listPre needle (h :: t) || listSub needle t

/-- Embeds the Python containment test `pat in hay` on strings. -/
def strHas (hay pat : String) : Bool :=
  listSub pat.toList hay.toList

/-- Embeds Python `str.strip()` (trim whitespace at both ends). -/
def stripStr (s : String) : String :=
  String.mk (((s.toList.dropWhile isWs).reverse.dropWhile isWs).reverse)

/-- Embeds Python `str.lstrip("0")`: drop every leading `0` character. -/
def lstrip0 (s : String) : String :=
  String.mk (s.toList.dropWhile (fun c => c == '0'))

/-- Split a character list on a separator character (embeds `str.split(sep)`
for the single-character separators `/`, `.`, `:` and space used by the
parsers). -/
def splitOnChar (sep : Char) : List Char → List (List Char)
  | [] => [[]]
  | c :: rest =>
    let r := splitOnChar sep rest
    if c == sep then [] :: r
    else
      match r with
      | h :: t => (c :: h) :: t
      | [] => [[c]]

/-- Decimal digit value. -/
def digitVal (c : Char) : Option Nat :=
  if '0' ≤ c ∧ c ≤ '9' then some (c.toNat - '0'.toNat) else none

def charsToNatAux : List Char → Nat → Option Nat
  | [], acc => some acc
  | c :: rest, acc =>
    match digitVal c with
    | some d => charsToNatAux rest (acc * 10 + d)
    | none => none

/-- Parse a non-empty all-digit character list as a natural number (embeds the
integer-field parsing done by `strptime`-style format codes). -/
def charsToNat : List Char → Option Nat
  | [] => none
  | c :: rest => charsToNatAux (c :: rest) 0

/-- Zero-padded two-digit rendering, as produced by `strftime` codes such as
`%I`, `%M`, `%S`, `%d`, `%m`, `%y`. -/
def pad2 (n : Nat) : String :=
  if n < 10 then "0" ++ toString n else toString n

/-! ## Timestamps and derived fields -/

/-- A zone-naive timestamp with second precision, the normalized value the
engine works with (`pd.Timestamp` after `errors="coerce"` parsing; a missing
value `NaT` is `Option.none` at use sites). -/
structure Timestamp where
  year : Nat
  month : Nat
  day : Nat
  hour : Nat
  minute : Nat
  second : Nat
  deriving DecidableEq, Repr

/-- Embeds `Series.dt.floor("H")`: truncate minutes and seconds to zero. -/
def floorHour (ts : Timestamp) : Timestamp :=
  { ts with minute := 0, second := 0 }

/-- Embeds `strftime("%I:%M:%S %p")`: 12-hour clock, zero padded hour,
meridiem suffix. -/
def fmtIMSp (h m s : Nat) : String :=
  let h12 := if h % 12 == 0 then 12 else h % 12
  pad2 h12 ++ ":" ++ pad2 m ++ ":" ++ pad2 s ++ " " ++ (if h < 12 then "AM" else "PM")

/-- Embeds `strftime("%I:%M:%S %p").str.lstrip("0")`, the `hora` rendering
shared by all three source modules. -/
def horaLstrip (h m s : Nat) : String :=
  lstrip0 (fmtIMSp h m s)

/-- Embeds pandas `astype("Int64").astype(str)` on one component: a missing
value renders as the placeholder string `<NA>`. -/
def int64Str (o : Option Nat) : String :=
  match o with
  | some n => toString n
  | none => "<NA>"

/-- Embeds the `date` Series built in tubular.py lines 140-142 and
youscan.py lines 120-124: `month.astype(str) + "/" + day.astype(str) + "/" +
year.astype(str)` over nullable `Int64` components. -/
def dateMDY_NA (o : Option Timestamp) : String :=
  int64Str (o.map Timestamp.month) ++ "/" ++ int64Str (o.map Timestamp.day)
    ++ "/" ++ int64Str (o.map Timestamp.year)

/-! ## AM/PM marker normalization (tubular.py lines 116-119)

Embeds the two pandas substitutions
`str.replace(r'\s*a[.\s]?m[.]?', ' AM', regex=True, case=False)` and
`str.replace(r'\s*p[.\s]?m[.]?', ' PM', regex=True, case=False)`:
a left-to-right, non-overlapping scan; at each position the pattern is a
maximal whitespace run, the marker letter, an optional dot-or-whitespace,
the letter m, and an optional dot. -/

/-- Consume an optional leading dot. -/
def dropDot : List Char → List Char
  | '.' :: r => r
  | r => r

/-- After the marker letter: match `[.\s]? m [.]?` and return the remainder. -/
def matchMTail : List Char → Option (List Char)
  | [] => none
  | c :: rest =>
    if c == 'm' || c == 'M' then some (dropDot rest)
    else if c == '.' || isWs c then
      match rest with
      | [] => none
      | d :: r2 => if d == 'm' || d == 'M' then some (dropDot r2) else none
    else none

/-- Try to match the whole marker pattern `\s* letter [.\s]? m [.]?` at the
current position (case-insensitive on the letter). -/
def matchMarker (letter : Char) (cs : List Char) : Option (List Char) :=
  match cs.dropWhile isWs with
  | [] => none
  | c :: r => if c.toLower == letter then matchMTail r else none

/-- Fuelled substitution pass: replace every non-overlapping match of the
marker pattern by `repl`, scanning left to right (the fuel is the input
length, which bounds the number of scan steps). -/
def subMarkerAux (letter : Char) (repl : List Char) : Nat → List Char → List Char
  | 0, cs => cs
  | _ + 1, [] => []
  | fuel + 1, c :: rest =>
    match matchMarker letter (c :: rest) with
    | some r => repl ++ subMarkerAux letter repl fuel r
    | none => c :: subMarkerAux letter repl fuel rest

/-- Embeds the a.m./p.m. normalization of tubular.py lines 116-119. -/
def normalizeAmPm (s : String) : String :=
  let l1 := subMarkerAux 'a' " AM".toList s.toList.length s.toList
  String.mk (subMarkerAux 'p' " PM".toList l1.length l1)

/-! ## Datetime parsers -/

/-- Parse an `a/b/yyyy` date field.  With `dayfirst` set this embeds
`pd.to_datetime(..., dayfirst=True)` (tubular.py line 122-127): the first
component is preferred as the day; if that makes the month component invalid
the two are swapped (dateutil behaviour).  Without `dayfirst` it embeds the
generic month-first parse used by sprinklr._coerce_datetime.  Returns
`(year, month, day)`. -/
def parseSlashDate (dayfirst : Bool) (cs : List Char) : Option (Nat × Nat × Nat) :=
  match splitOnChar '/' cs with
  | [a, b, c] => do
    let x ← charsToNat a
    let y ← charsToNat b
    let yr ← charsToNat c
    let d0 := if dayfirst then x else y
    let m0 := if dayfirst then y else x
    if 1 ≤ d0 ∧ d0 ≤ 31 ∧ 1 ≤ m0 ∧ m0 ≤ 12 then some (yr, m0, d0)
    else if 1 ≤ m0 ∧ m0 ≤ 31 ∧ 1 ≤ d0 ∧ d0 ≤ 12 then some (yr, d0, m0)
    else none
  | _ => none

/-- Parse an `h:mm:ss` time field (hour up to 23). -/
def parseHMS (cs : List Char) : Option (Nat × Nat × Nat) :=
  match splitOnChar ':' cs with
  | [a, b, c] => do
    let hh ← charsToNat a
    let mm ← charsToNat b
    let ss ← charsToNat c
    if hh ≤ 23 ∧ mm ≤ 59 ∧ ss ≤ 59 then some (hh, mm, ss) else none
  | _ => none

/-- Parse an `hh:mm` (24h, no seconds) time field, the strict `%H:%M` format
of youscan.py. -/
def parseHM (cs : List Char) : Option (Nat × Nat) :=
  match splitOnChar ':' cs with
  | [a, b] => do
    let hh ← charsToNat a
    let mm ← charsToNat b
    if hh ≤ 23 ∧ mm ≤ 59 then some (hh, mm) else none
  | _ => none

/-- Convert a 12-hour-clock hour (1..12) plus meridiem to a 24-hour hour. -/
def applyMeridiem (h : Nat) (pm : Bool) : Option Nat :=
  if 1 ≤ h ∧ h ≤ 12 then some (if pm then h % 12 + 12 else h % 12) else none

/-- Parse a slash-separated timestamp string: a date, an optional time, and
an optional `AM`/`PM` suffix separated by single spaces.  This is the shape
the tubular column holds after marker normalization, and the shape the
sprinklr generic parse handles for its exports. -/
def parseSlashTs (dayfirst : Bool) (s : String) : Option Timestamp :=
  match splitOnChar ' ' s.toList with
  | [d] => do
    let (y, mo, da) ← parseSlashDate dayfirst d
    pure ⟨y, mo, da, 0, 0, 0⟩
  | [d, t] => do
    let (y, mo, da) ← parseSlashDate dayfirst d
    let (hh, mm, ss) ← parseHMS t
    if hh ≤ 23 then pure ⟨y, mo, da, hh, mm, ss⟩ else none
  | [d, t, ap] => do
    let (y, mo, da) ← parseSlashDate dayfirst d
    let (hh, mm, ss) ← parseHMS t
    let pm ←
      if ap == "PM".toList then some true
      else if ap == "AM".toList then some false
      else none
    let h24 ← applyMeridiem hh pm
    pure ⟨y, mo, da, h24, mm, ss⟩
  | _ => none

/-- The tubular per-cell parse: normalize locale AM/PM markers, then parse
day-first (tubular.py lines 116-127); an unparseable cell is coerced to
`none` (`errors="coerce"`). -/
def tubularParse (cell : String) : Option Timestamp :=
  parseSlashTs true (normalizeAmPm cell)

/-- The sprinklr per-cell parse (`_coerce_datetime`, sprinklr.py lines 78-81):
`pd.to_datetime(..., errors="coerce")` with no day-first flag, modelled on
the slash-separated shapes the sprinklr exports contain. -/
def sprinklrParse (cell : String) : Option Timestamp :=
  parseSlashTs false cell

/-- The youscan combined parse (youscan.py lines 100-107): the `Date` and
`Time` cells are stripped, joined with one space, and parsed with the strict
format `%d.%m.%Y %H:%M`; failures are coerced to `none`. -/
def youscanParseTs (dateS timeS : String) : Option Timestamp :=
  let combined := stripStr dateS ++ " " ++ stripStr timeS
  match splitOnChar ' ' combined.toList with
  | [d, t] => do
    let (da, mo, y) ← (match splitOnChar '.' d with
      | [a, b, c] => do
        let da ← charsToNat a
        let mo ← charsToNat b
        let y ← charsToNat c
        if 1 ≤ da ∧ da ≤ 31 ∧ 1 ≤ mo ∧ mo ≤ 12 then some (da, mo, y) else none
      | _ => none)
    let (hh, mi) ← parseHM t
    pure ⟨y, mo, da, hh, mi, 0⟩
  | _ => none

/-! ## Column resolver (_find_created_col, sprinklr.py 51-61 / tubular.py 57-67;
the two definitions are textually identical) -/

/-- The shared ordered candidate list `_CANDIDATE_CREATED_COLS`. -/
def candidateCreatedCols : List String :=
  ["Created Time", "Created time", "created_time", "created time",
   "Fecha de creación", "Fecha", "Date Created", "Timestamp", "Time"]

/-- The keyword substrings of the fallback scan (identical in both modules). -/
def keywordList : List String :=
  ["creat", "fecha", "time", "date", "timestamp"]

/-- Does a lowered column name contain one of the fallback keywords? -/
def keywordHit (key : String) : Bool :=
  keywordList.any (fun w => strHas key w)

/-- The `KeyError` message raised when no column is found (identical in both
modules): a fixed string, naming neither the profile nor the columns. -/
def noColMsg : String :=
  "No pude encontrar la columna de fecha/hora. Especifica \x27created_col\x27."

/-- Embeds a Python dict insertion `m[k] = v` on an insertion-ordered dict
represented as an association list: an existing key keeps its position and
gets the new value, a new key is appended. -/
def dictInsert (m : List (String × String)) (k v : String) : List (String × String) :=
  match m with
  | [] => [(k, v)]
  | (k', v') :: rest => if k' == k then (k', v) :: rest else (k', v') :: dictInsert rest k v

/-- Embeds a Python dict lookup `m.get(k)` / `k in m` on the same
representation. -/
def dictGet (m : List (String × String)) (k : String) : Option String :=
  match m with
  | [] => none
  | (k', v) :: rest => if k' == k then some v else dictGet rest k

/-- Embeds the comprehension `{c.lower(): c for c in columns}`. -/
def buildLowered (columns : List String) : List (String × String) :=
  columns.foldl (fun m c => dictInsert m (lowerStr c) c) []

/-- Embeds the loop `for key, original in lowered.items(): if any(w in key
for w in (...)): return original`, followed by the `raise KeyError`. -/
def scanLowered : List (String × String) → Except String String
  | [] => .error noColMsg
  | (k, v) :: rest => if keywordHit k then .ok v else scanLowered rest

/-- Candidate scan plus keyword fallback (the body of `_find_created_col`
after the `preferred` check). -/
def findFromCandidates (columns : List String) : Except String String :=
  match candidateCreatedCols.find? (fun n => columns.contains n) with
  | some n => .ok n
  | none => scanLowered (buildLowered columns)

/-- Embeds `_find_created_col(columns, preferred)`.  The Python guard is
`if preferred and preferred in columns`, so an empty-string `preferred` is
falsy and skips the override branch. -/
def findCreatedCol (columns : List String) (preferred : Option String) : Except String String :=
  match preferred with
  | some p => if p != "" && columns.contains p then .ok p else findFromCandidates columns
  | none => findFromCandidates columns

/-! ## Derived fields per profile -/

/-- The tubular `hora` Series (tubular.py lines 149-150): floor to the hour,
then `strftime("%I:%M:%S %p").str.lstrip("0")`. -/
def tubularHoraOfTs (ts : Timestamp) : String :=
  horaLstrip (floorHour ts).hour (floorHour ts).minute (floorHour ts).second

/-- One tubular cell's derived fields (tubular.py lines 113-150): the `date`
string from the nullable Int64 concatenation, and the floored `hora` (missing
cells render `hora` as NaN, hence `Option`). -/
def tubularDeriveCell (cell : String) : String × Option String :=
  (dateMDY_NA (tubularParse cell), (tubularParse cell).map tubularHoraOfTs)

/-- The whole derived column pair, one entry per input row. -/
def tubularDerive (cells : List String) : List (String × Option String) :=
  cells.map tubularDeriveCell

/-- The sprinklr `date` Series as the code actually leaves it (sprinklr.py
line 119): `strftime("%d/%m/%y")`, zero-padded day-first with a two-digit
year. -/
def sprinklrDateOfTs (ts : Timestamp) : String :=
  pad2 ts.day ++ "/" ++ pad2 ts.month ++ "/" ++ pad2 (ts.year % 100)

/-- The sprinklr `hora` Series (sprinklr.py line 121). -/
def sprinklrHoraOfTs (ts : Timestamp) : String :=
  horaLstrip ts.hour ts.minute ts.second

/-- One sprinklr cell's derived fields: for a missing timestamp `strftime`
yields NaN, so both fields are `Option` and degrade to `none`. -/
def sprinklrDeriveCell (cell : String) : Option String × Option String :=
  ((sprinklrParse cell).map sprinklrDateOfTs, (sprinklrParse cell).map sprinklrHoraOfTs)

/-- One youscan row's derived fields (youscan.py lines 119-138), given the
raw `Date` and `Time` cells.  The `floorToHour` argument is accepted by
`process_dataframe` but never read — exactly as in the source, where
`hora_series` unconditionally applies `.dt.floor("h")` and `hora_original`
keeps the minutes.  Returns `(date, hora, hora_original)`. -/
def youscanDeriveRow (dateS timeS : String) (floorToHour : Bool) :
    String × Option String × Option String :=
  let _ := floorToHour
  let ts := youscanParseTs dateS timeS
  let hm := parseHM (stripStr timeS).toList
  (dateMDY_NA ts,
   hm.map (fun p => horaLstrip p.1 0 0),
   hm.map (fun p => horaLstrip p.1 p.2 0))

/-! ## Column projection (tubular.py lines 187-219) -/

/-- The module constant `_DEFAULT_KEEP_COLUMNS` (tubular.py lines 52-55). -/
def defaultKeepColumns : List String :=
  ["Date", "Creator", "Video_Title", "Video_URL", "Total_Engagements", "Views", "platform"]

/-- The warning printed for a requested column with no match
(tubular.py line 211). -/
def warnCol (r : String) : String :=
  "[WARN] Columna \x27" ++ r ++ "\x27 no encontrada en el DataFrame"

/-- Embeds the `for requested_col in columns_to_keep` loop of tubular.py
lines 200-211: exact match first, then case-insensitive via the lowered
dict, else a warning; matches are appended to `final_cols` without
duplicates.  Returns the final selection and the warnings. -/
def keepLoop (availableCols : List String) (colsLower : List (String × String)) :
    List String → List String → List String → List String × List String
  | [], finalCols, warns => (finalCols, warns)
  | r :: rest, finalCols, warns =>
    if availableCols.contains r then
      keepLoop availableCols colsLower rest
        (if finalCols.contains r then finalCols else finalCols ++ [r]) warns
    else
      match dictGet colsLower (lowerStr r) with
      | some actual =>
        keepLoop availableCols colsLower rest
          (if finalCols.contains actual then finalCols else finalCols ++ [actual]) warns
      | none => keepLoop availableCols colsLower rest finalCols (warns ++ [warnCol r])

/-- Embeds the pandas column indexing `out[sel]`: succeeds with the selected
names when they all exist, otherwise raises `KeyError` listing the missing
ones. -/
def selectCols (availableCols sel : List String) : Except String (List String) :=
  if sel.all (fun c => availableCols.contains c) then .ok sel
  else
    .error ("KeyError: " ++
      String.intercalate ", " (sel.filter (fun c => !availableCols.contains c)) ++
      " not in index")

/-- Embeds the column-selection tail of tubular.process_dataframe
(lines 187-219) on the post-derivation column list: when `keep_columns` is
given or `use_default_columns` is set, `final_cols` always starts
`["date", "hora", "tag", "tag_text"]` and the frame is indexed with it;
otherwise the full list is reordered — also through an indexing that names
`tag` and `tag_text`.  Returns the projection outcome and the warnings. -/
def tubularProject (availableCols : List String) (keepColumns : Option (List String))
    (useDefaultColumns : Bool) : Except String (List String) × List String :=
  if keepColumns.isSome || useDefaultColumns then
    let columnsToKeep := keepColumns.getD defaultKeepColumns
    let colsLower := buildLowered availableCols
    let (finalCols, warns) :=
      keepLoop availableCols colsLower columnsToKeep ["date", "hora", "tag", "tag_text"] []
    (selectCols availableCols finalCols, warns)
  else
    let pinned := ["date", "hora", "tag", "tag_text"]
    (selectCols availableCols (pinned ++ availableCols.filter (fun c => !pinned.contains c)), [])

/-! ## The sprinklr column pipeline (process_dataframe, sprinklr.py 83-161) -/

/-- Embeds the effect of sprinklr.process_dataframe on the column list, with
each pandas step that can raise modelled as an `Except` failure: resolve the
timestamp column, drop the two hardwired columns (`errors="ignore"`), access
the timestamp column for coercion (raises if it was just dropped), drop any
pre-existing `hora`/`date`/`tag`, insert the fresh `hora` then `date` at the
front, optionally drop the original timestamp column (raising if absent),
and reorder with `date`, `hora` pinned first. -/
def sprinklrProcessCols (cols : List String) (createdCol : Option String)
    (dropOriginalCreated : Bool) : Except String (List String) :=
  match findCreatedCol cols createdCol with
  | .error e => .error e
  | .ok col =>
    let c1 := cols.filter (fun c => !(c == "Sender Profile Image Url" || c == "Associated Cases"))
    if !c1.contains col then .error ("KeyError: " ++ col)
    else
      let c2 := c1.filter (fun c => !(c == "hora" || c == "date" || c == "tag"))
      let c3 := "date" :: "hora" :: c2
      let c4 :=
        if dropOriginalCreated then
          if c3.contains col then some (c3.filter (fun c => !(c == col))) else none
        else some c3
      match c4 with
      | none => .error ("KeyError: " ++ col)
      | some c4 =>
        selectCols c4 (["date", "hora"] ++ c4.filter (fun c => !(c == "date" || c == "hora")))

/-! ## Batch export (sprinklr.py 219-241, tubular.py 284-309, youscan.py 265-303) -/

/-- The warning printed when one file of a batch fails. -/
def warnFile (f e : String) : String :=
  "[WARN] Falló " ++ f ++ ": " ++ e

/-- Embeds `batch_export`: process the files in order with the per-file
pipeline `runOne` (read, process, export — any exception surfaces as
`Except.error`), collect successful output paths, and turn each per-file
failure into a `[WARN]` line without stopping.  Returns the successful
outputs and the warnings, each in file order. -/
def batchExport (runOne : String → Except String String) :
    List String → List String × List String
  | [] => ([], [])
  | f :: rest =>
    let (outs, logs) := batchExport runOne rest
    match runOne f with
    | .ok out => (out :: outs, logs)
    | .error e => (outs, warnFile f e :: logs)

/-! ## Theorems for the claims -/

/-- C1: the claim states that the tubular Column Projector never raises for
an explicitly given keep_columns list and that every projected column exists.
In the code (tubular.py lines 197 and 214) `final_cols` always starts
`["date", "hora", "tag", "tag_text"]`, but the creation of `tag` and
`tag_text` is commented out (lines 156-157, 178-179), so `out[final_cols]`
raises `KeyError` on every post-derivation table that lacks those two
literal columns — here the table `[date, hora, Views, Creator]` with
`keep_columns = [Views, Engagement]`: the missing requested name only warns,
but the projection itself fails. -/
theorem c1_tubular_projection_keyerror :
    tubularProject ["date", "hora", "Views", "Creator"] (some ["Views", "Engagement"]) true
      = (.error "KeyError: tag, tag_text not in index", [warnCol "Engagement"]) := by
  decide

/-- C2 counterexample: on the raw cell `9/5/2025 6:05:00 p.m.` the tubular
(single-column locale-AM/PM) profile does not produce `date = 9/5/2025` nor
`hora = 6:05:00 PM`: the parse is day-first (day 9, month 5) so the derived
month/day/year string is `5/9/2025`, and `hora` is floored to the hour. -/
theorem c2_scenario_counterexample :
    (tubularDeriveCell "9/5/2025 6:05:00 p.m.").1 ≠ "9/5/2025" ∧
    (tubularDeriveCell "9/5/2025 6:05:00 p.m.").2 ≠ some "6:05:00 PM" := by
  decide

/-- C2 amended: the `p.m.` marker is normalized to `PM` and the value parses
(day-first: day 9, month 5, 18:05:00); the derived fields are
`date = 5/9/2025` and `hora = 6:00:00 PM` (floored to the hour by
tubular.py line 149). -/
theorem c2_scenario_amended :
    normalizeAmPm "9/5/2025 6:05:00 p.m." = "9/5/2025 6:05:00 PM" ∧
    tubularParse "9/5/2025 6:05:00 p.m." = some ⟨2025, 5, 9, 18, 5, 0⟩ ∧
    tubularDeriveCell "9/5/2025 6:05:00 p.m." = ("5/9/2025", some "6:00:00 PM") := by
  decide

/-- C3: the claim (and the youscan module docstring, which promises
`hora: 12h AM/PM con segundos en :00 (ej. 6:28:00 AM)` and truncation only
`si True`) says that with `floor_to_hour=False` the row
`Date=22.09.2025, Time=06:28` yields `hora = 6:28:00 AM`.  The code accepts
the `floor_to_hour` argument but never reads it and applies `.dt.floor("h")`
unconditionally (youscan.py line 129), so `hora` is `6:00:00 AM`; the
minutes survive only in `hora_original`.  The `date` part of the claim
(`9/22/2025`) does hold. -/
theorem c3_youscan_unconditional_floor :
    youscanDeriveRow "22.09.2025" "06:28" false
      = ("9/22/2025", some "6:00:00 AM", some "6:28:00 AM") := by
  decide

/-- C4 counterexample: for an unparseable tubular cell the timestamp is
coerced to Missing and `hora` is Missing, but the derived `date` field is
the present placeholder string `<NA>/<NA>/<NA>` (the nullable-Int64
concatenation of tubular.py lines 140-142), not a Missing value as the
claim states. -/
theorem c4_missing_date_counterexample :
    tubularParse "sin fecha" = none ∧
    tubularDeriveCell "sin fecha" = ("<NA>/<NA>/<NA>", none) := by
  decide

/-- C4 amended: for every row whose raw cell is unparseable, the timestamp is
coerced to Missing instead of raising, `hora` is Missing and the row count is
preserved; however the `date` field is Missing only in the sprinklr profile
(strftime yields NaN there), while in the tubular profile it degrades to the
placeholder string `<NA>/<NA>/<NA>`. -/
theorem c4_missing_propagation_amended (cells : List String) (cell cell2 : String)
    (h1 : tubularParse cell = none) (h2 : sprinklrParse cell2 = none) :
    (tubularDerive cells).length = cells.length ∧
    tubularDeriveCell cell = ("<NA>/<NA>/<NA>", none) ∧
    sprinklrDeriveCell cell2 = (none, none) := by
  refine ⟨List.length_map _ _, ?_, ?_⟩
  · simp only [tubularDeriveCell, h1, Option.map_none]
    decide
  · simp [sprinklrDeriveCell, h2]

/-- C4 witness: the amended statement at the concrete unparseable cell
`sin fecha`. -/
theorem c4_missing_propagation_witness :
    (tubularDerive ["sin fecha"]).length = ["sin fecha"].length ∧
    tubularDeriveCell "sin fecha" = ("<NA>/<NA>/<NA>", none) ∧
    sprinklrDeriveCell "sin fecha" = (none, none) :=
  c4_missing_propagation_amended ["sin fecha"] "sin fecha" "sin fecha" (by decide) (by decide)

/-- C5: the claim (and the sprinklr module docstring, `Fecha en M/D/YYYY
(sin ceros a la izquierda)`) says every profile derives the date as
month/day/year with no leading zeros.  The sprinklr code overwrites its
unpadded concatenation with `strftime("%d/%m/%y")` (sprinklr.py line 119),
producing a zero-padded day/month two-digit-year string: for the timestamp
2025-09-05 18:05:00 it yields `05/09/25`.  The tubular/youscan date and the
sprinklr `hora` do satisfy the claimed formats. -/
theorem c5_sprinklr_date_format :
    sprinklrDateOfTs ⟨2025, 9, 5, 18, 5, 0⟩ = "05/09/25" ∧
    sprinklrHoraOfTs ⟨2025, 9, 5, 18, 5, 0⟩ = "6:05:00 PM" ∧
    dateMDY_NA (some ⟨2025, 9, 5, 18, 5, 0⟩) = "9/5/2025" := by
  decide

/-- C8: batch_export processes the files in order; each per-file failure is
reported as a `[WARN]` line naming the file and the reason, its output is
excluded from the returned list, and the remaining files are still
processed: the outputs are exactly the successes in file order and the
warnings are exactly the failures in file order. -/
theorem c8_batch_failure_isolation (runOne : String → Except String String)
    (files : List String) :
    (batchExport runOne files).1 = files.filterMap (fun f => (runOne f).toOption) ∧
    (batchExport runOne files).2 = files.filterMap (fun f =>
      match runOne f with
      | .ok _ => none
      | .error e => some (warnFile f e)) := by
  induction files with
  | nil => exact ⟨rfl, rfl⟩
  | cons f rest ih =>
    cases h : runOne f <;>
      simp [batchExport, List.filterMap_cons, h, ih.1, ih.2, Except.toOption]

/-- C9: floor-to-hour derivation is idempotent: deriving `hora` from an
already hour-floored timestamp gives the same string as deriving it once,
because `floorHour` only zeroes the minute and second fields. -/
theorem c9_floor_to_hour_idempotent (ts : Timestamp) :
    tubularHoraOfTs (floorHour ts) = tubularHoraOfTs ts := by
  cases ts
  rfl

/-- C10 counterexample: an input table with columns
`[Created Time, tag, X]` loses its `tag` column (sprinklr.py line 150 drops
a pre-existing `tag` and, the `tag` Series being commented out, nothing
recreates it), although `tag` is neither the timestamp column nor one of the
two hardwired dropped columns nor a recreated derived field — refuting the
claim that no other non-timestamp, non-derived column is removed. -/
theorem c10_tag_removed_counterexample :
    sprinklrProcessCols ["Created Time", "tag", "X"] (some "Created Time") true
      = .ok ["date", "hora", "X"] := by
  decide

/-- C6 counterexample: the Python guard is `if preferred and preferred in
columns`, so the empty string — a falsy `preferred` that nevertheless
exactly matches a column named `""` — is not returned; the resolver falls
through to the heuristics and fails, refuting the claim for this input. -/
theorem c6_empty_preferred_counterexample :
    "" ∈ [""] ∧
    findCreatedCol [""] (some "") = .error noColMsg ∧
    findCreatedCol [""] (some "") ≠ .ok "" := by
  decide

/-- C6 amended: if the preferred argument is non-empty and exactly matches a
column name present in the table, the resolver returns that name, regardless
of the candidate-list contents. -/
theorem c6_preferred_override_amended (columns : List String) (p : String)
    (hne : p ≠ "") (hmem : p ∈ columns) :
    findCreatedCol columns (some p) = .ok p := by
  have h1 : (p != "") = true := by simpa using hne
  have h2 : columns.contains p = true := List.elem_eq_true_of_mem hmem
  have h3 : ((p != "") && columns.contains p) = true := by rw [h1, h2]; rfl
  simp only [findCreatedCol, h3]
  simp

/-- C6 witness: the candidate `Created Time` is present, yet the non-empty
explicit preferred name `X` wins. -/
theorem c6_preferred_override_witness :
    findCreatedCol ["Created Time", "X"] (some "X") = .ok "X" :=
  c6_preferred_override_amended ["Created Time", "X"] "X" (by decide) (by decide)

/-! ### Helper lemmas for the keyword-fallback characterization -/

theorem dictInsert_append (m : List (String × String)) (k v : String)
    (h : ∀ p ∈ m, p.1 ≠ k) : dictInsert m k v = m ++ [(k, v)] := by
  induction m with
  | nil => rfl
  | cons hd tl ih =>
    have hne : (hd.1 == k) = false := by
      simpa using h hd (List.mem_cons_self hd tl)
    simp only [dictInsert, hne, Bool.false_eq_true, if_false, List.cons_append,
      List.cons.injEq, true_and]
    exact ih (fun p hp => h p (List.mem_cons_of_mem _ hp))

theorem foldl_dictInsert (cols : List String) (acc : List (String × String))
    (hacc : ∀ c ∈ cols, ∀ p ∈ acc, p.1 ≠ lowerStr c)
    (hdist : cols.Pairwise (fun a b => lowerStr a ≠ lowerStr b)) :
    cols.foldl (fun m c => dictInsert m (lowerStr c) c) acc
      = acc ++ cols.map (fun c => (lowerStr c, c)) := by
  induction cols generalizing acc with
  | nil => simp
  | cons c rest ih =>
    rw [List.foldl_cons,
      dictInsert_append acc (lowerStr c) c (hacc c (List.mem_cons_self c rest)),
      ih (acc ++ [(lowerStr c, c)]) ?ha ?hd]
    · simp
    case ha =>
      intro c' hc' p hp
      rcases List.mem_append.mp hp with hpa | hpb
      · exact hacc c' (List.mem_cons_of_mem _ hc') p hpa
      · have hp1 : p = (lowerStr c, c) := by simpa using hpb
        rw [hp1]
        exact (List.pairwise_cons.mp hdist).1 c' hc'
    case hd => exact (List.pairwise_cons.mp hdist).2

/-- When no two columns collide after lowering, the insertion-ordered dict
built by the comprehension is just the list of (lowered, original) pairs in
column order. -/
theorem buildLowered_eq_map (columns : List String)
    (hdist : columns.Pairwise (fun a b => lowerStr a ≠ lowerStr b)) :
    buildLowered columns = columns.map (fun c => (lowerStr c, c)) := by
  simpa [buildLowered] using foldl_dictInsert columns [] (by simp) hdist

theorem scanLowered_map (cols : List String) :
    scanLowered (cols.map (fun c => (lowerStr c, c))) =
      match cols.find? (fun c => keywordHit (lowerStr c)) with
      | some c => Except.ok c
      | none => Except.error noColMsg := by
  induction cols with
  | nil => rfl
  | cons c rest ih =>
    cases hk : keywordHit (lowerStr c) <;> simp [scanLowered, List.find?, hk, ih]

/-- C7 counterexample: the claim names `publish` among the keyword
substrings of the video-analytics (tubular) profile and promises the first
matching column in column order.  The code has no `publish` keyword (both
resolvers scan only creat/fecha/time/date/timestamp), so a table whose only
column is `Published` makes the resolver fail instead of returning it; and
because the lowered names are collected into a dict where a later column
overwrites an earlier one with the same lowered key, `[DATE, date]` resolves
to `date`, not to the first column `DATE`. -/
theorem c7_keyword_fallback_counterexample :
    findCreatedCol ["Published"] none = .error noColMsg ∧
    findCreatedCol ["DATE", "date"] none = .ok "date" := by
  decide

/-- C7 amended: when neither the preferred name nor any candidate-list name
is present, and no two column names collide after lowering, the resolver
returns the first column in column order whose lowered name contains one of
creat, fecha, time, date, timestamp — the same five substrings in every
profile, with no extra `publish` keyword; if no keyword matches it fails
with the fixed message `noColMsg`, which names neither the profile nor the
available columns.  (When two columns share a lowered name, the later one
shadows the earlier in the dict, as the counterexample shows.) -/
theorem c7_keyword_fallback_amended (columns : List String)
    (hcand : ∀ n ∈ candidateCreatedCols, n ∉ columns)
    (hdist : columns.Pairwise (fun a b => lowerStr a ≠ lowerStr b)) :
    findCreatedCol columns none =
      match columns.find? (fun c => keywordHit (lowerStr c)) with
      | some c => Except.ok c
      | none => Except.error noColMsg := by
  have hfind : candidateCreatedCols.find? (fun n => columns.contains n) = none := by
    rw [List.find?_eq_none]
    intro n hn hcontains
    exact hcand n hn (List.mem_of_elem_eq_true hcontains)
  rw [show findCreatedCol columns none = findFromCandidates columns from rfl]
  rw [findFromCandidates, hfind, buildLowered_eq_map columns hdist, scanLowered_map]

/-- C7 witness: the amended statement on the concrete table
`[Author, Created At]` — no candidate name present, lowered names distinct —
resolves to `Created At` via the `creat` keyword. -/
theorem c7_keyword_fallback_witness :
    findCreatedCol ["Author", "Created At"] none = Except.ok "Created At" :=
  (c7_keyword_fallback_amended ["Author", "Created At"] (by decide) (by decide)).trans
    (by decide)

/-- C10 amended: the sprinklr derivation step removes the columns
`Sender Profile Image Url` and `Associated Cases` whenever present, and
additionally removes any pre-existing `hora`, `date` or `tag` column
(`hora` and `date` are recreated as derived fields and pinned first, `tag`
is not recreated) as well as the resolved timestamp column (with the default
`drop_original_created=True`); no other column is removed, and the surviving
columns keep their relative order after the pinned `date`, `hora`. -/
theorem c10_frame_effect_amended (cols : List String) (pref : Option String) (col : String)
    (hres : findCreatedCol cols pref = .ok col)
    (hmem : col ∈ cols)
    (hdrop : col ∉ ["Sender Profile Image Url", "Associated Cases", "hora", "date", "tag"]) :
    sprinklrProcessCols cols pref true =
      .ok (["date", "hora"] ++ cols.filter (fun c =>
        !(c == "Sender Profile Image Url" || c == "Associated Cases" ||
          c == "hora" || c == "date" || c == "tag" || c == col))) := by
  simp only [List.mem_cons, List.not_mem_nil, or_false, not_or] at hdrop
  obtain ⟨h1, h2, h3, h4, h5⟩ := hdrop
  have hA : (!(col == "Sender Profile Image Url" || col == "Associated Cases")) = true := by
    simp [h1, h2]
  have hB : (!(col == "hora" || col == "date" || col == "tag")) = true := by
    simp [h3, h4, h5]
  have hc1 : col ∈ cols.filter
      (fun c => !(c == "Sender Profile Image Url" || c == "Associated Cases")) :=
    List.mem_filter.mpr ⟨hmem, hA⟩
  have hc1c : (cols.filter
      (fun c => !(c == "Sender Profile Image Url" || c == "Associated Cases"))).contains col
        = true :=
    List.elem_eq_true_of_mem hc1
  have hc2 : col ∈ (cols.filter
      (fun c => !(c == "Sender Profile Image Url" || c == "Associated Cases"))).filter
      (fun c => !(c == "hora" || c == "date" || c == "tag")) :=
    List.mem_filter.mpr ⟨hc1, hB⟩
  have hdcol : ("date" == col) = false := by
    simp
    exact fun h => h4 h.symm
  have hhcol : ("hora" == col) = false := by
    simp
    exact fun h => h3 h.symm
  simp only [sprinklrProcessCols, hres, hc1c, Bool.not_true, Bool.false_eq_true, if_false,
    if_true]
  have hc3c : (("date" :: "hora" :: (cols.filter
      (fun c => !(c == "Sender Profile Image Url" || c == "Associated Cases"))).filter
      (fun c => !(c == "hora" || c == "date" || c == "tag"))).contains col) = true :=
    List.elem_eq_true_of_mem (List.mem_cons_of_mem _ (List.mem_cons_of_mem _ hc2))
  simp only [hc3c, if_true]
  rw [show (("date" :: "hora" :: (cols.filter
      (fun c => !(c == "Sender Profile Image Url" || c == "Associated Cases"))).filter
      (fun c => !(c == "hora" || c == "date" || c == "tag"))).filter
      (fun c => !(c == col)))
      = "date" :: "hora" :: ((cols.filter
      (fun c => !(c == "Sender Profile Image Url" || c == "Associated Cases"))).filter
      (fun c => !(c == "hora" || c == "date" || c == "tag"))).filter
      (fun c => !(c == col)) from by
    simp only [List.filter_cons, hdcol, hhcol, Bool.or_self, Bool.not_false]
    simp]
  set c2col := ((cols.filter
      (fun c => !(c == "Sender Profile Image Url" || c == "Associated Cases"))).filter
      (fun c => !(c == "hora" || c == "date" || c == "tag"))).filter
      (fun c => !(c == col)) with hc2col
  have hfc : ("date" :: "hora" :: c2col).filter (fun c => !(c == "date" || c == "hora"))
      = c2col := by
    rw [List.filter_cons, List.filter_cons]
    have e1 : (!("date" == "date" || "date" == "hora")) = false := rfl
    have e2 : (!("hora" == "date" || "hora" == "hora")) = false := rfl
    rw [e1, e2]
    simp only [Bool.false_eq_true, if_false]
    rw [List.filter_eq_self]
    intro a ha
    have haB := (List.mem_filter.mp (List.mem_filter.mp ha).1).2
    revert haB
    cases hh : a == "hora" <;> cases hd : a == "date" <;> cases ht : a == "tag" <;> simp_all
  rw [hfc]
  have hall : (["date", "hora"] ++ c2col).all
      (fun c => ("date" :: "hora" :: c2col).contains c) = true := by
    rw [List.all_eq_true]
    intro x hx
    rcases List.mem_append.mp hx with hx1 | hx2
    · simp only [List.mem_cons, List.not_mem_nil, or_false] at hx1
      rcases hx1 with rfl | rfl
      · exact List.elem_eq_true_of_mem (List.mem_cons_self _ _)
      · exact List.elem_eq_true_of_mem (List.mem_cons_of_mem _ (List.mem_cons_self _ _))
    · exact List.elem_eq_true_of_mem (List.mem_cons_of_mem _ (List.mem_cons_of_mem _ hx2))
  rw [selectCols]
  simp only [hall, if_true]
  have hfinal : c2col = cols.filter (fun c =>
      !(c == "Sender Profile Image Url" || c == "Associated Cases" ||
        c == "hora" || c == "date" || c == "tag" || c == col)) := by
    rw [hc2col, List.filter_filter, List.filter_filter]
    apply List.filter_congr
    intro x _
    cases q1 : x == "Sender Profile Image Url" <;> cases q2 : x == "Associated Cases" <;>
      cases q3 : x == "hora" <;> cases q4 : x == "date" <;> cases q5 : x == "tag" <;>
      cases q6 : x == col <;> rfl
  rw [hfinal]

/-- C10 witness: the amended statement on a concrete table carrying both
hardwired dropped columns, a `tag` column and an unrelated column `X`. -/
theorem c10_frame_effect_witness :
    sprinklrProcessCols ["Created Time", "tag", "Sender Profile Image Url", "X"]
      (some "Created Time") true = .ok ["date", "hora", "X"] :=
  (c10_frame_effect_amended ["Created Time", "tag", "Sender Profile Image Url", "X"]
    (some "Created Time") "Created Time" (by decide) (by decide) (by decide)).trans
    (by decide)

end Ogilvy

